import Mathlib

/-!
Verification development for the drought-order-tracker repository.

The definitions below are a shallow embedding of the order-status lookup
handler in `src/netlify/functions/get-order.js`.  Network effects are made
explicit: the environment supplies, per upstream call, the reply the HTTPS
layer would have produced (status code plus parse result), and, per shipment,
the outcome of the 17track verification pass.  All functions are executable.
-/

namespace DroughtTracker

/-- JavaScript truthiness for a nullable string field: `null`/`undefined`
(modelled as `none`) and the empty string are falsy. -/
def truthy : Option String → Bool
  | none => false
  | some s => decide (s ≠ "")

/-- `String.toLowerCase` of JavaScript, modelled on the character list. -/
def lowerStr (s : String) : String :=
  ⟨s.data.map Char.toLower⟩

/-- Whether the first list occurs as a leading segment of the second. -/
def charsStartWith : List Char → List Char → Bool
  | [], _ => true
  | _ :: _, [] => false
  | a :: as, b :: bs => a == b && charsStartWith as bs

/-- Whether `needle` occurs contiguously inside `hay` (`String.includes`). -/
def charsContain (needle : List Char) : List Char → Bool
  | [] => needle.isEmpty
  | b :: bs => charsStartWith needle (b :: bs) || charsContain needle bs

/-- `hay.includes(needle)` of JavaScript. -/
def strContains (hay needle : String) : Bool :=
  charsContain needle.data hay.data

/-- A ShipStation shipment record as consumed by the handler. -/
structure RawShipment where
  shipmentId : String
  trackingNumber : Option String
  carrierCode : Option String
  shipDate : Option String
  deliveryDate : Option String
  voidDate : Option String
  shipmentStatus : Option String
  trackingStatus : Option String
  deriving DecidableEq

/-- A ShipStation order record. -/
structure Order where
  orderNumber : String
  customerEmail : String
  orderDate : String
  orderStatus : String
  deriving DecidableEq

/-- `checkShipmentDeliveryStatus` from get-order.js: the platform-only
delivery heuristic over ShipStation fields. -/
def checkShipmentDeliveryStatus (shipment : RawShipment) : Bool :=
  if truthy shipment.deliveryDate then true
  else if truthy shipment.voidDate then false
  else if truthy shipment.shipmentStatus &&
      lowerStr (shipment.shipmentStatus.getD "") == "delivered" then true
  else if truthy shipment.trackingStatus &&
      strContains (lowerStr (shipment.trackingStatus.getD "")) "delivered" then true
  else false

/-- `track_info.latest_status` of a 17track v2.2 reply. -/
structure LatestStatus where
  status : Option String
  sub_status : Option String
  deriving DecidableEq

/-- `track_info.latest_event` of a 17track v2.2 reply. -/
structure LatestEvent where
  time_iso : Option String
  time_utc : Option String
  description : Option String
  location : Option String
  deriving DecidableEq

/-- `track_info` of a 17track v2.2 reply. -/
structure TrackInfo where
  latest_status : Option LatestStatus
  latest_event : Option LatestEvent
  deriving DecidableEq

/-- The tracking-derived fields computed in step 4 of
`getShipmentsWithTracking`. -/
structure TrackFields where
  actuallyShipped : Bool
  isDelivered : Bool
  deliveryDate : Option String
  trackingStatus : String
  deriving DecidableEq

/-- The defaults used when no valid tracking data was obtained. -/
def noTrackFields : TrackFields :=
  { actuallyShipped := false, isDelivered := false
    deliveryDate := none, trackingStatus := "" }

/-- The status-string switch of `getShipmentsWithTracking` (get-order.js
lines 429-466), acting on the already-lowercased latest status. -/
def statusSwitch (low : String) : Bool × Bool :=
  if low = "delivered" then (true, true)
  else if low = "intransit" then (true, false)
  else if low = "in_transit" then (true, false)
  else if low = "pickup" then (true, false)
  else if low = "picked_up" then (true, false)
  else if low = "undelivered" then (true, false)
  else if low = "exception" then (true, false)
  else if low = "alert" then (true, false)
  else (false, false)

/-- Step 4 classification of `getShipmentsWithTracking` for a shipment whose
latest status string is truthy: the switch on the lowercased status, the
delivery date drawn from `latest_event.time_iso` in the delivered case, and
the sub-status override that forces `actuallyShipped`. -/
def classifyCore (trackingStatus subStatus : String)
    (latest_event : Option LatestEvent) : TrackFields :=
  let low := lowerStr trackingStatus
  let base := statusSwitch low
  let dDate : Option String :=
    if low = "delivered" then
      match latest_event with
      | some ev => if truthy ev.time_iso then ev.time_iso else none
      | none => none
    else none
  let subLow := lowerStr subStatus
  let shipped :=
    base.1 || (strContains subLow "pickedup" || strContains subLow "picked_up")
  { actuallyShipped := shipped, isDelivered := base.2
    deliveryDate := dDate, trackingStatus := trackingStatus }

/-- Classification of whatever `track_info` the 17track pass ended with:
classification runs only when `latest_status.status` is truthy (the
`hasValidData` guard of get-order.js); otherwise the defaults stand. -/
def classifyTrackInfo : Option TrackInfo → TrackFields
  | none => noTrackFields
  | some ti =>
    match ti.latest_status with
    | none => noTrackFields
    | some ls =>
      if truthy ls.status then
        classifyCore (ls.status.getD "") (ls.sub_status.getD "") ti.latest_event
      else noTrackFields

/-- The environment's verdict for one shipment's 17track pass: `ok info`
is the final `track_info` (after the query / register / poll sequence),
`err` is any exception thrown while processing that shipment. -/
inductive TrackOutcome where
  | ok (info : Option TrackInfo)
  | err
  deriving DecidableEq

/-- A shipment after the 17track pass, as appended to `trackedShipments`. -/
structure TrackedShipment where
  base : RawShipment
  actuallyShipped : Bool
  isDelivered : Bool
  deliveryDate : Option String
  trackingStatus : String
  deriving DecidableEq

/-- One iteration of the `getShipmentsWithTracking` loop: a missing tracking
number short-circuits to not-shipped; an exception fails open to
`actuallyShipped = true` with the platform heuristic for delivery; otherwise
the tracking data is classified and the computed delivery date falls back to
the ShipStation one (`deliveryDate || shipment.deliveryDate`). -/
def trackOne (s : RawShipment) (o : TrackOutcome) : TrackedShipment :=
  if truthy s.trackingNumber then
    match o with
    | .err =>
      { base := s, actuallyShipped := true
        isDelivered := checkShipmentDeliveryStatus s
        deliveryDate := s.deliveryDate, trackingStatus := "error" }
    | .ok info =>
      let f := classifyTrackInfo info
      { base := s, actuallyShipped := f.actuallyShipped
        isDelivered := f.isDelivered
        deliveryDate := if truthy f.deliveryDate then f.deliveryDate else s.deliveryDate
        trackingStatus := f.trackingStatus }
  else
    { base := s, actuallyShipped := false, isDelivered := false
      deliveryDate := s.deliveryDate, trackingStatus := "" }

/-- `getShipmentsWithTracking`: every shipment is processed in order, each
with the tracking outcome the environment holds for it. -/
def getShipmentsWithTracking (pairs : List (RawShipment × TrackOutcome)) :
    List TrackedShipment :=
  pairs.map fun p => trackOne p.1 p.2

/-- The per-shipment display status computed in the handler's enrichment
loop (get-order.js lines 179-187). -/
def shipmentStatusOf (t : TrackedShipment) : String :=
  if t.isDelivered then "delivered"
  else if t.actuallyShipped then "shipped"
  else "processing"

/-- One entry of the response's `shipments` array.  Fields absent from the
non-tracking enrichment path are `none` there. -/
structure EnrichedShipment where
  shipmentId : String
  trackingNumber : Option String
  carrierCode : Option String
  shipDate : Option String
  deliveryDate : Option String
  isDelivered : Bool
  shipmentNumber : Nat
  totalShipments : Nat
  status : Option String
  trackingStatus : Option String
  deriving DecidableEq

/-- The enrichment applied to one tracked shipment at position `i` of the
`forEach` (get-order.js lines 189-204). -/
def enrichTracked (total i : Nat) (t : TrackedShipment) : EnrichedShipment :=
  { shipmentId := t.base.shipmentId
    trackingNumber := t.base.trackingNumber
    carrierCode := t.base.carrierCode
    shipDate := t.base.shipDate
    deliveryDate := if truthy t.deliveryDate then t.deliveryDate else none
    isDelivered := t.isDelivered
    shipmentNumber := i + 1
    totalShipments := total
    status := some (shipmentStatusOf t)
    trackingStatus := some t.trackingStatus }

/-- The enrichment applied when 17track is not configured (get-order.js
lines 252-270): delivery comes from the platform heuristic only. -/
def enrichPlain (total i : Nat) (s : RawShipment) : EnrichedShipment :=
  { shipmentId := s.shipmentId
    trackingNumber := s.trackingNumber
    carrierCode := s.carrierCode
    shipDate := s.shipDate
    deliveryDate := if truthy s.deliveryDate then s.deliveryDate else none
    isDelivered := checkShipmentDeliveryStatus s
    shipmentNumber := i + 1
    totalShipments := total
    status := none
    trackingStatus := none }

/-- Index-carrying enrichment loop (`forEach` with its index argument). -/
def numberFrom (mk : Nat → α → EnrichedShipment) : Nat → List α → List EnrichedShipment
  | _, [] => []
  | i, x :: rest => mk i x :: numberFrom mk (i + 1) rest

/-- The `shipments` array built on the 17track path. -/
def buildTracked (ts : List TrackedShipment) : List EnrichedShipment :=
  numberFrom (enrichTracked ts.length) 0 ts

/-- The `shipments` array built when 17track is not configured. -/
def buildPlain (ss : List RawShipment) : List EnrichedShipment :=
  numberFrom (enrichPlain ss.length) 0 ss

/-- The aggregate-status chain of get-order.js lines 207-220, driven by the
flags accumulated over `trackedShipments`. -/
def effectiveStatus (raw : String) (ts : List TrackedShipment) : String :=
  let hasDelivered := ts.any fun t => t.isDelivered
  let hasInTransit := ts.any fun t => !t.isDelivered && t.actuallyShipped
  if hasDelivered && ts.all (fun t => t.isDelivered) then "delivered"
  else if hasDelivered then "partially_delivered"
  else if hasInTransit then "shipped"
  else if !ts.isEmpty && !hasInTransit then "awaiting_fulfillment"
  else raw

/-- The response body assembled at get-order.js lines 284-290. -/
structure OrderStatusResponse where
  orderNumber : String
  customerEmail : String
  orderDate : String
  orderStatus : String
  shipments : List EnrichedShipment
  deriving DecidableEq

/-- The handler's shipments phase and response assembly (get-order.js lines
147-298), entered once an exact-match order is in hand.  `fetch` is the
outcome of the `/shipments` upstream call: a rejection of any kind is caught
and processing continues with no shipments; `key` records whether a 17track
API key is configured.  The returned pair is the HTTP status code and body. -/
def handlerAfterMatch (o : Order) (key : Bool)
    (fetch : Except Unit (List (RawShipment × TrackOutcome))) :
    Nat × OrderStatusResponse :=
  let pr : List EnrichedShipment × String :=
    match fetch with
    | .error _ => ([], o.orderStatus)
    | .ok pairs =>
      if pairs.isEmpty then ([], o.orderStatus)
      else if key then
        let tracked := getShipmentsWithTracking pairs
        (buildTracked tracked, effectiveStatus o.orderStatus tracked)
      else
        (buildPlain (pairs.map Prod.fst), o.orderStatus)
  (200, { orderNumber := o.orderNumber
          customerEmail := o.customerEmail
          orderDate := o.orderDate
          orderStatus := lowerStr pr.2
          shipments := pr.1 })

/-- The client-safe not-found message of get-order.js. -/
def notFoundMsg : String :=
  "Order not found. Please check your order number and email address and try again."

/-- The exact-match predicate of get-order.js lines 128-132: order number
compared case-sensitively, email case-insensitively. -/
def exactMatchPred (num email : String) (o : Order) : Bool :=
  o.orderNumber == num && lowerStr o.customerEmail == lowerStr email

/-- The order-lookup stage of the handler (get-order.js lines 118-141):
an empty candidate list or a failed exact-match scan yields the 404
not-found outcome, otherwise the matched order. -/
def orderSearch (orders : List Order) (num email : String) :
    Except (Nat × String) Order :=
  if orders.isEmpty then .error (404, notFoundMsg)
  else
    match orders.find? (exactMatchPred num email) with
    | some o => .ok o
    | none => .error (404, notFoundMsg)

/-- The payload shape the handler reads off a parsed ShipStation reply. -/
structure ShipPayload where
  orders : List Order
  shipments : List RawShipment
  deriving DecidableEq

/-- One would-be HTTPS exchange with ShipStation: a reply with its status
code and the JSON-parse result of its body, a socket error, or a timeout. -/
inductive HttpAttempt where
  | reply (statusCode : Nat) (parsed : Option ShipPayload)
  | netError (msg : String)
  | timeout
  deriving DecidableEq

/-- The response dispatch of `makeShipStationRequest` (get-order.js lines
606-639): 200 resolves the parsed body, 404 resolves an empty payload, and
every other status — 429 and 5xx included — rejects at once. -/
def shipStationDispatch : HttpAttempt → Except String ShipPayload
  | .reply c p =>
    if c = 200 then
      match p with
      | some d => .ok d
      | none => .error "Invalid response from ShipStation"
    else if c = 404 then .ok { orders := [], shipments := [] }
    else .error ("ShipStation API error: " ++ toString c)
  | .netError m => .error ("Network error: " ++ m)
  | .timeout => .error "Request timeout"

/-- `makeShipStationRequest` issues exactly one HTTPS exchange: of the
sequence of attempts the environment could serve, only the first is used. -/
def makeShipStationRequest (env : Nat → HttpAttempt) : Except String ShipPayload :=
  shipStationDispatch (env 0)

/-- The body of a 17track v2.2 reply: the `track_info` of each accepted
entry. -/
structure TrackApiBody where
  accepted : List (Option TrackInfo)
  deriving DecidableEq

/-- One would-be HTTPS exchange with 17track v2.2. -/
inductive Track17Attempt where
  | reply (statusCode : Nat) (parsed : Option TrackApiBody)
  | netError (msg : String)
  | timeout
  deriving DecidableEq

/-- The response dispatch of `makeSeventeenTrackV22Request` (get-order.js
lines 548-583): 200 resolves the parsed body, anything else rejects at
once. -/
def seventeenTrackDispatch : Track17Attempt → Except String TrackApiBody
  | .reply c p =>
    if c = 200 then
      match p with
      | some d => .ok d
      | none => .error "Invalid response from 17track v2.2"
    else .error ("17track v2.2 API error: " ++ toString c)
  | .netError m => .error m
  | .timeout => .error "17track v2.2 request timeout"

/-- `makeSeventeenTrackV22Request` issues exactly one HTTPS exchange. -/
def makeSeventeenTrackV22Request (env : Nat → Track17Attempt) :
    Except String TrackApiBody :=
  seventeenTrackDispatch (env 0)

end DroughtTracker

namespace DroughtTracker

theorem numberFrom_length (mk : Nat → α → EnrichedShipment) (i : Nat) (xs : List α) :
    (numberFrom mk i xs).length = xs.length := by
  induction xs generalizing i with
  | nil => rfl
  | cons x rest ih => simp [numberFrom, ih]

theorem numberFrom_map_attr {β : Type} (g : EnrichedShipment → β) (f : α → β)
    (mk : Nat → α → EnrichedShipment) (hmk : ∀ i x, g (mk i x) = f x)
    (i : Nat) (xs : List α) : (numberFrom mk i xs).map g = xs.map f := by
  induction xs generalizing i with
  | nil => rfl
  | cons x rest ih => simp [numberFrom, hmk, ih]

theorem numberFrom_map_num (mk : Nat → α → EnrichedShipment)
    (hmk : ∀ i x, (mk i x).shipmentNumber = i + 1) (i : Nat) (xs : List α) :
    ((numberFrom mk i xs).map fun e => e.shipmentNumber)
      = List.range' (i + 1) xs.length := by
  induction xs generalizing i with
  | nil => rfl
  | cons x rest ih => simp [numberFrom, hmk, List.range'_succ, ih]

theorem numberFrom_map_total (mk : Nat → α → EnrichedShipment) (c : Nat)
    (hmk : ∀ i x, (mk i x).totalShipments = c) (i : Nat) (xs : List α) :
    ((numberFrom mk i xs).map fun e => e.totalShipments)
      = List.replicate xs.length c := by
  induction xs generalizing i with
  | nil => rfl
  | cons x rest ih => simp [numberFrom, hmk, List.replicate_succ, ih]

theorem buildTracked_length (ts : List TrackedShipment) :
    (buildTracked ts).length = ts.length :=
  numberFrom_length _ 0 ts

theorem buildTracked_total (ts : List TrackedShipment) :
    ((buildTracked ts).map fun e => e.totalShipments)
      = List.replicate ts.length ts.length :=
  numberFrom_map_total (enrichTracked ts.length) ts.length (fun _ _ => rfl) 0 ts

theorem buildTracked_num (ts : List TrackedShipment) :
    ((buildTracked ts).map fun e => e.shipmentNumber) = List.range' 1 ts.length := by
  simpa using numberFrom_map_num (enrichTracked ts.length) (fun _ _ => rfl) 0 ts

theorem buildPlain_length (ss : List RawShipment) :
    (buildPlain ss).length = ss.length :=
  numberFrom_length _ 0 ss

theorem buildPlain_total (ss : List RawShipment) :
    ((buildPlain ss).map fun e => e.totalShipments)
      = List.replicate ss.length ss.length :=
  numberFrom_map_total (enrichPlain ss.length) ss.length (fun _ _ => rfl) 0 ss

theorem buildPlain_num (ss : List RawShipment) :
    ((buildPlain ss).map fun e => e.shipmentNumber) = List.range' 1 ss.length := by
  simpa using numberFrom_map_num (enrichPlain ss.length) (fun _ _ => rfl) 0 ss

/-- A label-created shipment with a tracking number and no carrier data. -/
def ship0 : RawShipment :=
  { shipmentId := "S1", trackingNumber := some "T2", carrierCode := some "usps"
    shipDate := some "2024-01-01", deliveryDate := none, voidDate := none
    shipmentStatus := none, trackingStatus := none }

/-- An order whose raw platform status is `on_hold`. -/
def order0 : Order :=
  { orderNumber := "ABC123", customerEmail := "a@b.com"
    orderDate := "2024-01-01", orderStatus := "on_hold" }

/-- A latest tracking event with an ISO timestamp. -/
def event0 : LatestEvent :=
  { time_iso := some "2024-02-02T10:00:00Z", time_utc := none
    description := none, location := none }

/-- A voided shipment that still carries misleading delivery markers. -/
def ship1 : RawShipment :=
  { ship0 with voidDate := some "2024-01-02", shipmentStatus := some "delivered"
               trackingStatus := some "Delivered to agent" }

/-- `track_info` builder used in classification statements. -/
def mkTrackInfo (st sub : String) (ev : Option LatestEvent) : TrackInfo :=
  { latest_status := some { status := some st, sub_status := some sub }
    latest_event := ev }

/-- C1 counterexample: with tracking active and the tracking pass succeeding,
the handler keeps a shipment classified neither shipped nor delivered in the
response (its `status` is `processing`), so the shipments array does not
contain only shipped or delivered entries. -/
theorem C1_counterexample :
    ¬ (∀ e ∈ (handlerAfterMatch order0 true (.ok [(ship0, .ok none)])).2.shipments,
        e.status = some "shipped" ∨ e.status = some "delivered") := by
  decide

/-- C1 (amended): no label-only suppression happens at all — the response's
shipments array keeps one entry per fetched shipment, in order, and an entry
classified neither shipped nor delivered appears with status `processing`
(every entry's status is exactly its per-shipment classification). -/
theorem C1_no_filtering (o : Order) (pairs : List (RawShipment × TrackOutcome)) :
    (handlerAfterMatch o true (.ok pairs)).2.shipments.length = pairs.length ∧
    ((handlerAfterMatch o true (.ok pairs)).2.shipments.map fun e => e.status)
      = (getShipmentsWithTracking pairs).map fun t => some (shipmentStatusOf t) := by
  rcases pairs with _ | ⟨p, rest⟩
  · constructor <;> rfl
  · constructor
    · simp [handlerAfterMatch, buildTracked_length, getShipmentsWithTracking]
    · have hmap := numberFrom_map_attr (fun e => e.status)
        (fun t => some (shipmentStatusOf t))
        (enrichTracked (getShipmentsWithTracking (p :: rest)).length)
        (fun _ _ => rfl) 0 (getShipmentsWithTracking (p :: rest))
      simpa [handlerAfterMatch, buildTracked] using hmap

/-- C2 counterexample: a raw status other than `shipped` (here `on_hold`)
with one unscanned shipment is still overridden to `awaiting_fulfillment`,
not passed through unchanged. -/
theorem C2_counterexample :
    (handlerAfterMatch order0 true (.ok [(ship0, .ok none)])).2.orderStatus
        = "awaiting_fulfillment" ∧ order0.orderStatus = "on_hold" := by
  decide

/-- C2 (amended): whenever at least one shipment existed and zero were
classified shipped or delivered, the effective status is overridden to
`awaiting_fulfillment` regardless of the platform's raw status. -/
theorem C2_override_any_raw (raw : String) (ts : List TrackedShipment)
    (hne : ts ≠ [])
    (hall : ∀ t ∈ ts, t.isDelivered = false ∧ t.actuallyShipped = false) :
    effectiveStatus raw ts = "awaiting_fulfillment" := by
  have hd : (ts.any fun t => t.isDelivered) = false := by
    simp only [List.any_eq_false]
    intro t ht
    simp [(hall t ht).1]
  have hs : (ts.any fun t => !t.isDelivered && t.actuallyShipped) = false := by
    simp only [List.any_eq_false]
    intro t ht
    simp [(hall t ht).2]
  have hne' : ts.isEmpty = false := by
    cases ts with
    | nil => exact absurd rfl hne
    | cons a l => rfl
  simp [effectiveStatus, hd, hs, hne']

/-- A single tracked shipment with a label but no carrier scan. -/
def tsProc : List TrackedShipment :=
  [{ base := ship0, actuallyShipped := false, isDelivered := false
     deliveryDate := none, trackingStatus := "" }]

/-- Witness for C2: the override fires for raw status `on_hold`. -/
theorem C2_witness :
    (tsProc ≠ [] ∧ ∀ t ∈ tsProc, t.isDelivered = false ∧ t.actuallyShipped = false) ∧
    effectiveStatus "on_hold" tsProc = "awaiting_fulfillment" :=
  ⟨⟨by decide, by decide⟩, C2_override_any_raw "on_hold" tsProc (by decide) (by decide)⟩

/-- C3: over any non-empty tracked shipment list the aggregate status follows
the strict priority chain — all delivered, else some delivered, else some
shipped — each case applying only when the previous ones fail. -/
theorem C3_priority (raw : String) (ts : List TrackedShipment) (hne : ts ≠ []) :
    ((ts.all fun t => t.isDelivered) = true → effectiveStatus raw ts = "delivered") ∧
    ((ts.all fun t => t.isDelivered) = false → (ts.any fun t => t.isDelivered) = true →
      effectiveStatus raw ts = "partially_delivered") ∧
    ((ts.any fun t => t.isDelivered) = false → (ts.any fun t => t.actuallyShipped) = true →
      effectiveStatus raw ts = "shipped") := by
  refine ⟨?_, ?_, ?_⟩
  · intro hall
    obtain ⟨t, ht⟩ := List.exists_mem_of_ne_nil ts hne
    have hd : (ts.any fun t => t.isDelivered) = true := by
      simp only [List.any_eq_true]
      exact ⟨t, ht, by simpa using List.all_eq_true.mp hall t ht⟩
    simp [effectiveStatus, hd, hall]
  · intro hallf hany
    simp [effectiveStatus, hany, hallf]
  · intro hanyd hanys
    have hs : (ts.any fun t => !t.isDelivered && t.actuallyShipped) = true := by
      obtain ⟨t, ht, hsh⟩ := List.any_eq_true.mp hanys
      have hdt : ¬ t.isDelivered = true := List.any_eq_false.mp hanyd t ht
      exact List.any_eq_true.mpr ⟨t, ht, by simp_all⟩
    simp [effectiveStatus, hanyd, hs]

/-- A single delivered tracked shipment. -/
def tsDel : List TrackedShipment :=
  [{ base := ship0, actuallyShipped := true, isDelivered := true
     deliveryDate := some "2024-02-02T10:00:00Z", trackingStatus := "Delivered" }]

/-- Witness for C3: with every shipment delivered the aggregate is
`delivered`. -/
theorem C3_witness :
    (tsDel ≠ [] ∧ (tsDel.all fun t => t.isDelivered) = true) ∧
    effectiveStatus "shipped" tsDel = "delivered" :=
  ⟨⟨by decide, by decide⟩, (C3_priority "shipped" tsDel (by decide)).1 (by decide)⟩

/-- A latest status of `pending` whose sub-status says "picked up" with a
space, the phrasing the spec uses. -/
def infoPickedUpSpace : TrackInfo := mkTrackInfo "pending" "picked up" none

/-- C4 counterexample: a sub-status containing the spec's phrase
"picked up" (with a space) does not force `actuallyShipped` — the code only
recognises the substrings `pickedup` and `picked_up`. -/
theorem C4_counterexample :
    (classifyTrackInfo (some infoPickedUpSpace)).actuallyShipped = false := by
  decide

/-- C4 (amended): the classification maps the latest status string
case-insensitively — `delivered` to shipped and delivered with the delivery
date from the latest event timestamp when present; the in-transit, pickup and
problem statuses to shipped-not-delivered; everything else (including
`pending`, `info_received`, `not_found`, and absent data) to neither — and a
sub-status containing `pickedup` or `picked_up` (not the spaced phrase
"picked up") forces shipped. -/
theorem C4_classification (st sub : String) (ev : Option LatestEvent)
    (hst : st ≠ "") :
    classifyTrackInfo (some (mkTrackInfo st sub ev)) = classifyCore st sub ev ∧
    (lowerStr st = "delivered" →
      (classifyCore st sub ev).actuallyShipped = true ∧
      (classifyCore st sub ev).isDelivered = true ∧
      (∀ e, ev = some e → truthy e.time_iso = true →
        (classifyCore st sub ev).deliveryDate = e.time_iso)) ∧
    ((lowerStr st = "intransit" ∨ lowerStr st = "in_transit" ∨ lowerStr st = "pickup" ∨
        lowerStr st = "picked_up" ∨ lowerStr st = "undelivered" ∨
        lowerStr st = "exception" ∨ lowerStr st = "alert") →
      (classifyCore st sub ev).actuallyShipped = true ∧
      (classifyCore st sub ev).isDelivered = false) ∧
    (lowerStr st ∉ (["delivered", "intransit", "in_transit", "pickup", "picked_up",
        "undelivered", "exception", "alert"] : List String) →
      (classifyCore st sub ev).isDelivered = false ∧
      (classifyCore st sub ev).actuallyShipped
        = (strContains (lowerStr sub) "pickedup" || strContains (lowerStr sub) "picked_up")) ∧
    (classifyTrackInfo none).actuallyShipped = false ∧
    (classifyTrackInfo none).isDelivered = false := by
  refine ⟨?_, ?_, ?_, ?_, rfl, rfl⟩
  · simp [classifyTrackInfo, mkTrackInfo, truthy, hst]
  · intro h
    refine ⟨by simp [classifyCore, statusSwitch, h], by simp [classifyCore, statusSwitch, h], ?_⟩
    intro e he ht
    subst he
    simp [classifyCore, statusSwitch, h, ht]
  · intro h
    rcases h with h | h | h | h | h | h | h <;>
      exact ⟨by simp [classifyCore, statusSwitch, h], by simp [classifyCore, statusSwitch, h]⟩
  · intro h
    simp only [List.mem_cons, List.not_mem_nil, or_false] at h
    push_neg at h
    obtain ⟨h1, h2, h3, h4, h5, h6, h7, h8⟩ := h
    constructor
    · simp [classifyCore, statusSwitch, h1, h2, h3, h4, h5, h6, h7, h8]
    · simp [classifyCore, statusSwitch, h1, h2, h3, h4, h5, h6, h7, h8]

/-- Witness for C4: a literal `Delivered` status classifies as delivered. -/
theorem C4_witness :
    ("Delivered" : String) ≠ "" ∧
    (classifyCore "Delivered" "" (some event0)).isDelivered = true :=
  ⟨by decide, ((C4_classification "Delivered" "" (some event0) (by decide)).2.1
      (by decide)).2.1⟩

/-- C5: in every assembled response, each shipment's `totalShipments` equals
the length of the response's shipments array, and the `shipmentNumber`
values run 1..length in order. -/
theorem C5_numbering (o : Order) (key : Bool)
    (fetch : Except Unit (List (RawShipment × TrackOutcome))) :
    ((handlerAfterMatch o key fetch).2.shipments.map fun e => e.totalShipments)
      = List.replicate (handlerAfterMatch o key fetch).2.shipments.length
          (handlerAfterMatch o key fetch).2.shipments.length ∧
    ((handlerAfterMatch o key fetch).2.shipments.map fun e => e.shipmentNumber)
      = List.range' 1 (handlerAfterMatch o key fetch).2.shipments.length := by
  rcases fetch with e | pairs
  · constructor <;> rfl
  · rcases pairs with _ | ⟨p, rest⟩
    · constructor <;> rfl
    · cases key
      · constructor
        · simp [handlerAfterMatch, buildPlain_total, buildPlain_length]
        · simp [handlerAfterMatch, buildPlain_num, buildPlain_length]
      · constructor
        · simp [handlerAfterMatch, buildTracked_total, buildTracked_length]
        · simp [handlerAfterMatch, buildTracked_num, buildTracked_length]

/-- C6: a per-shipment verification error fails open — the shipment is
treated as shipped with delivery per the platform heuristic, and it is still
present at its position in the processed list, never dropped. -/
theorem C6_fail_open (s : RawShipment)
    (pre post : List (RawShipment × TrackOutcome))
    (h : truthy s.trackingNumber = true) :
    (trackOne s .err).actuallyShipped = true ∧
    (trackOne s .err).isDelivered = checkShipmentDeliveryStatus s ∧
    getShipmentsWithTracking (pre ++ (s, .err) :: post)
      = getShipmentsWithTracking pre ++ trackOne s .err :: getShipmentsWithTracking post := by
  refine ⟨?_, ?_, ?_⟩
  · simp [trackOne, h]
  · simp [trackOne, h]
  · simp [getShipmentsWithTracking]

/-- Witness for C6 at a concrete shipment with a tracking number. -/
theorem C6_witness :
    truthy ship0.trackingNumber = true ∧
    ((trackOne ship0 .err).actuallyShipped = true ∧
      (trackOne ship0 .err).isDelivered = checkShipmentDeliveryStatus ship0 ∧
      getShipmentsWithTracking ([] ++ (ship0, .err) :: [])
        = getShipmentsWithTracking [] ++ trackOne ship0 .err :: getShipmentsWithTracking []) :=
  ⟨by decide, C6_fail_open ship0 [] [] (by decide)⟩

/-- C7: an empty candidate list, or one with no exact
(case-sensitive order number, case-insensitive email) match, makes the order
lookup stage return the 404 not-found outcome, never a server error. -/
theorem C7_not_found (orders : List Order) (num email : String)
    (h : orders = [] ∨ orders.find? (exactMatchPred num email) = none) :
    orderSearch orders num email = .error (404, notFoundMsg) := by
  rcases h with h | h
  · subst h
    rfl
  · rcases orders with _ | ⟨o, rest⟩
    · rfl
    · simp [orderSearch, h]

/-- A loosely-matching candidate: right email, wrong order number. -/
def orders1 : List Order :=
  [{ orderNumber := "ABC124", customerEmail := "a@b.com"
     orderDate := "2024-01-01", orderStatus := "shipped" }]

/-- Witness for C7: a loose candidate that fails the exact filter yields the
404 not-found outcome. -/
theorem C7_witness :
    orders1.find? (exactMatchPred "ABC123" "a@b.com") = none ∧
    orderSearch orders1 "ABC123" "a@b.com" = .error (404, notFoundMsg) :=
  ⟨by decide, C7_not_found orders1 "ABC123" "a@b.com" (Or.inr (by decide))⟩

/-- C8: the platform-only heuristic reports not-delivered whenever a void
date is set and no delivery date is, whatever the status fields say, and
reports delivered whenever a delivery date is set. -/
theorem C8_void_heuristic (s : RawShipment) :
    (truthy s.voidDate = true → truthy s.deliveryDate = false →
      checkShipmentDeliveryStatus s = false) ∧
    (truthy s.deliveryDate = true → checkShipmentDeliveryStatus s = true) := by
  constructor
  · intro hv hd
    simp [checkShipmentDeliveryStatus, hv, hd]
  · intro hd
    simp [checkShipmentDeliveryStatus, hd]

/-- Witness for C8: a voided shipment with misleading delivered markers is
still not delivered. -/
theorem C8_witness :
    truthy ship1.voidDate = true ∧ truthy ship1.deliveryDate = false ∧
    checkShipmentDeliveryStatus ship1 = false :=
  ⟨by decide, by decide, (C8_void_heuristic ship1).1 (by decide) (by decide)⟩

/-- An environment that rate-limits the first exchange and would succeed on
any later one. -/
def env429 : Nat → HttpAttempt := fun n =>
  if n = 0 then .reply 429 none
  else .reply 200 (some { orders := [], shipments := [] })

/-- C9 counterexample: although the environment would serve a successful
reply on a second attempt, a first-attempt 429 fails the call outright —
there is no retry, hence no exponential backoff. -/
theorem C9_counterexample :
    makeShipStationRequest env429 = .error "ShipStation API error: 429" := rfl

/-- C9 (amended): each upstream HTTP call is attempted exactly once; a 429
or 5xx reply makes both request functions fail immediately with an upstream
error, with no retry and no backoff. -/
theorem C9_single_attempt (envS : Nat → HttpAttempt) (envT : Nat → Track17Attempt)
    (c : Nat) (ps : Option ShipPayload) (pt : Option TrackApiBody)
    (hc : c = 429 ∨ 500 ≤ c)
    (hS : envS 0 = .reply c ps) (hT : envT 0 = .reply c pt) :
    makeShipStationRequest envS = .error ("ShipStation API error: " ++ toString c) ∧
    makeSeventeenTrackV22Request envT = .error ("17track v2.2 API error: " ++ toString c) := by
  have h200 : ¬ c = 200 := by rcases hc with h | h <;> omega
  have h404 : ¬ c = 404 := by rcases hc with h | h <;> omega
  constructor
  · simp [makeShipStationRequest, hS, shipStationDispatch, h200, h404]
  · simp [makeSeventeenTrackV22Request, hT, seventeenTrackDispatch, h200]

/-- An environment that always rate-limits the ShipStation exchange. -/
def envS429 : Nat → HttpAttempt := fun _ => .reply 429 none

/-- An environment that always rate-limits the 17track exchange. -/
def envT429 : Nat → Track17Attempt := fun _ => .reply 429 none

/-- Witness for C9 at a concrete 429 environment. -/
theorem C9_witness :
    ((429 = 429 ∨ 500 ≤ 429) ∧ envS429 0 = .reply 429 none ∧
      envT429 0 = .reply 429 none) ∧
    makeShipStationRequest envS429 = .error ("ShipStation API error: " ++ toString 429) ∧
    makeSeventeenTrackV22Request envT429
      = .error ("17track v2.2 API error: " ++ toString 429) :=
  ⟨⟨Or.inl rfl, rfl, rfl⟩,
    C9_single_attempt envS429 envT429 429 none none (Or.inl rfl) rfl rfl⟩

/-- C10: when the shipment-listing call rejects, the handler still answers
200 with an empty shipments array and the raw platform status lowercased. -/
theorem C10_fetch_failure (o : Order) (key : Bool) :
    (handlerAfterMatch o key (.error ())).1 = 200 ∧
    (handlerAfterMatch o key (.error ())).2.shipments = [] ∧
    (handlerAfterMatch o key (.error ())).2.orderStatus = lowerStr o.orderStatus ∧
    (handlerAfterMatch o key (.error ())).2.orderNumber = o.orderNumber := by
  refine ⟨rfl, rfl, rfl, rfl⟩

end DroughtTracker
